import Mathlib

/-!
Verification development for the rnp latency probing tool.

Shallow embedding of the core data model and operations:
- `PingResult` and its console / JSON / CSV formatters (src/ping_result.rs);
- the latency-bucket aggregator (src/ping_result_processors/
  ping_result_processor_latency_bucket_logger.rs);
- the worker's result-construction step (src/ping_worker.rs);
- the TCP ping operation (src/ping_runners/ping_clients/ping_client_tcp.rs).

Machine integers are modelled as `Nat` (u32 / u128 counters never overflow in
the claims considered); durations are carried as their `as_micros()` value.
-/

/-- The subset of `std::io::ErrorKind` variants the program inspects; every
other kind is carried via `other`. -/
inductive IoErrorKind where
  | timedOut
  | addrInUse
  | connectionRefused
  | addressNotAvailable
  | other (s : String)
  deriving DecidableEq, Repr

/-- `std::io::Error`: an error kind plus its display message. -/
structure IoError where
  kind : IoErrorKind
  msg : String
  deriving DecidableEq, Repr

/-- An IPv4 socket address: the rendered IP string plus the port, displayed
as `ip:port` (Rust `SocketAddr` Display). -/
structure SocketAddr where
  ip : String
  port : Nat
  deriving DecidableEq, Repr

def SocketAddr.render (a : SocketAddr) : String :=
  a.ip ++ ":" ++ toString a.port

/-- Modelled from the spec: `PingClientError` is defined in
`ping_clients/ping_client.rs`, which is not part of the provided sources.
Per the spec's error taxonomy it is a tagged union
`{PreparationFailed, PingFailed}` wrapping the underlying OS error, exposing
the kind field "so the aggregator can distinguish timeout from other failures
without string matching". Its display, per the unit tests in
src/ping_result.rs, prints `preparation failed: {msg}` / `ping failed: {msg}`. -/
inductive PingClientError where
  | PreparationFailed (e : IoError)
  | PingFailed (e : IoError)
  deriving DecidableEq, Repr

def PingClientError.kind : PingClientError → IoErrorKind
  | .PreparationFailed e => e.kind
  | .PingFailed e => e.kind

def PingClientError.toMessage : PingClientError → String
  | .PreparationFailed e => "preparation failed: " ++ e.msg
  | .PingFailed e => "ping failed: " ++ e.msg

/-- Maximal value of `Duration::as_micros()`: a Rust `Duration` is a u64
second count plus sub-second nanoseconds, so its microsecond value is at most
`(2^64 - 1) * 10^6 + 999999`. -/
def durationMaxUs : Nat := (2 ^ 64 - 1) * 1000000 + 999999

/-- `u128::MAX`. -/
def u128Max : Nat := 2 ^ 128 - 1

/-- Rust `format!("{:.2}", (us as f64) / 1000.0)`: microseconds rendered as
milliseconds with two decimals. The embedding rounds the exact rational
`us / 1000` (ties to even); this agrees with the double-precision computation
whenever the third decimal digit is not a tie, which covers every value used
in the claims (all multiples of 10 microseconds). -/
def fmtMs2 (us : Nat) : String :=
  let h0 := us / 10
  let r := us % 10
  let h :=
    if 5 < r then h0 + 1
    else if r < 5 then h0
    else if h0 % 2 = 0 then h0 else h0 + 1
  toString (h / 100) ++ "." ++ (if h % 100 < 10 then "0" else "") ++ toString (h % 100)

/-- Rust bool Display. -/
def boolStr (b : Bool) : String := if b then "true" else "false"

/-- `PingResult` (src/ping_result.rs): immutable record of one probe attempt.
`ping_time` is carried as its Debug rendering (ISO-8601 with milliseconds and
`Z`), `round_trip_time` as microseconds. -/
structure PingResult where
  ping_time : String
  worker_id : Nat
  protocol : String
  target : SocketAddr
  source : SocketAddr
  is_warmup : Bool
  round_trip_time : Nat
  is_timed_out : Bool
  error : Option PingClientError
  deriving DecidableEq, Repr

/-- src/ping_result.rs `is_preparation_error`. -/
def PingResult.is_preparation_error (r : PingResult) : Bool :=
  match r.error with
  | some (.PreparationFailed _) => true
  | _ => false

/-- src/ping_result.rs `format_as_console_log` (lines 74-121). -/
def PingResult.format_as_console_log (r : PingResult) : String :=
  let warmup_sign := if r.is_warmup then " (warmup)" else ""
  if r.is_timed_out then
    "Reaching " ++ r.protocol ++ " " ++ r.target.render ++ " from " ++
      r.source.render ++ warmup_sign ++ " failed: Timed out, RTT = " ++
      fmtMs2 r.round_trip_time ++ "ms"
  else
    match r.error with
    | some (.PreparationFailed e) =>
        "Unable to perform ping to " ++ r.protocol ++ " " ++ r.target.render ++
          " from " ++ r.source.render ++ warmup_sign ++
          ", because failing to prepare local socket: Error = " ++ e.msg
    | some (.PingFailed e) =>
        "Reaching " ++ r.protocol ++ " " ++ r.target.render ++ " from " ++
          r.source.render ++ warmup_sign ++ " failed: " ++ e.msg
    | none =>
        "Reaching " ++ r.protocol ++ " " ++ r.target.render ++ " from " ++
          r.source.render ++ warmup_sign ++ " succeeded: RTT=" ++
          fmtMs2 r.round_trip_time ++ "ms"

/-- src/ping_result.rs `format_as_json_string` (lines 123-146). Literal braces
of the JSON record are written with escapes. -/
def PingResult.format_as_json_string (r : PingResult) : String :=
  let error_message :=
    match r.error with
    | some e => e.toMessage
    | none => ""
  "\x7b\"utcTime\":\"" ++ r.ping_time ++ "\",\"protocol\":\"" ++ r.protocol ++
    "\",\"workerId\":" ++ toString r.worker_id ++
    ",\"targetIP\":\"" ++ r.target.ip ++
    "\",\"targetPort\":\"" ++ toString r.target.port ++
    "\",\"sourceIP\":\"" ++ r.source.ip ++
    "\",\"sourcePort\":\"" ++ toString r.source.port ++
    "\",\"isWarmup\":\"" ++ boolStr r.is_warmup ++
    "\",\"roundTripTimeInMs\":" ++ fmtMs2 r.round_trip_time ++
    ",\"isTimedOut\":\"" ++ boolStr r.is_timed_out ++
    "\",\"error\":\"" ++ error_message ++
    "\",\"isPreparationError\":\"" ++ boolStr r.is_preparation_error ++ "\"\x7d"

/-- src/ping_result.rs `format_as_csv_string` (lines 148-171). -/
def PingResult.format_as_csv_string (r : PingResult) : String :=
  let error_message :=
    match r.error with
    | some e => e.toMessage
    | none => ""
  r.ping_time ++ "," ++ toString r.worker_id ++ "," ++ r.protocol ++ "," ++
    r.target.ip ++ "," ++ toString r.target.port ++ "," ++
    r.source.ip ++ "," ++ toString r.source.port ++ "," ++
    boolStr r.is_warmup ++ "," ++ fmtMs2 r.round_trip_time ++ "," ++
    boolStr r.is_timed_out ++ ",\"" ++ error_message ++ "\"," ++
    boolStr r.is_preparation_error

/-- `PingResultProcessorLatencyBucketLogger` (src/ping_result_processors/
ping_result_processor_latency_bucket_logger.rs, lines 7-14). `buckets_in_us`
are the normalized bucket upper bounds in microseconds; the u32 counters are
modelled as `Nat`. -/
structure PingResultProcessorLatencyBucketLogger where
  buckets_in_us : List Nat
  total_hit_count : Nat
  bucket_hit_counts : List Nat
  timed_out_hit_count : Nat
  failed_hit_count : Nat
  deriving DecidableEq, Repr

namespace PingResultProcessorLatencyBucketLogger

/-- `new` (lines 17-42). The Rust constructor receives the separators in
milliseconds as `Vec<f64>` and normalizes each to microseconds by
`(x * 1000.0) as u128`; the embedding receives the already-converted
microsecond values (for the spec's separators `[0.1,0.5,1.0,10.0,50.0,100.0]`
the double-precision conversion is exact, yielding
`[100,500,1000,10000,50000,100000]`). `u128::MAX` is appended as the final
upper bound and the hit-count vector starts at zero with one slot per
normalized bucket. -/
def new (bucketsUs : List Nat) : PingResultProcessorLatencyBucketLogger :=
  let normalized := bucketsUs ++ [u128Max]
  { buckets_in_us := normalized
    total_hit_count := 0
    bucket_hit_counts := List.replicate normalized.length 0
    timed_out_hit_count := 0
    failed_hit_count := 0 }

/-- Index of the first bucket whose upper bound strictly exceeds the latency:
the scan of `track_latency_in_buckets` (lines 55-65). `none` means the scan
fell through to the `unreachable!()` panic. -/
def trackIdx : List Nat → Nat → Option Nat
  | [], _ => none
  | b :: rest, lat => if lat < b then some 0 else (trackIdx rest lat).map (· + 1)

/-- Increment the entry at the given index (`bucket_hit_counts[i] += 1`). -/
def incAt : List Nat → Nat → List Nat
  | [], _ => []
  | x :: rest, 0 => (x + 1) :: rest
  | x :: rest, Nat.succ n => x :: incAt rest n

/-- `track_latency_in_buckets` (lines 55-65): find the first bucket whose
upper bound strictly exceeds the latency (in microseconds) and increment it;
`none` models the `unreachable!()` panic when no bucket matches. -/
def track_latency_in_buckets (s : PingResultProcessorLatencyBucketLogger)
    (latencyUs : Nat) : Option PingResultProcessorLatencyBucketLogger :=
  match trackIdx s.buckets_in_us latencyUs with
  | some i => some { s with bucket_hit_counts := incAt s.bucket_hit_counts i }
  | none => none

/-- `update_statistics` (lines 44-53): bump the total, then dispatch on the
result's error — kind `TimedOut` bumps `timed_out_hit_count`, any other error
bumps `failed_hit_count`, no error tracks the round-trip time in the latency
buckets. -/
def update_statistics (s : PingResultProcessorLatencyBucketLogger)
    (r : PingResult) : Option PingResultProcessorLatencyBucketLogger :=
  let s := { s with total_hit_count := s.total_hit_count + 1 }
  match r.error with
  | some e =>
      if e.kind = IoErrorKind.timedOut then
        some { s with timed_out_hit_count := s.timed_out_hit_count + 1 }
      else
        some { s with failed_hit_count := s.failed_hit_count + 1 }
  | none => track_latency_in_buckets s r.round_trip_time

/-- Process a list of results starting from a given (possibly already failed)
state. -/
def runFrom (os : Option PingResultProcessorLatencyBucketLogger)
    (rs : List PingResult) : Option PingResultProcessorLatencyBucketLogger :=
  rs.foldl (fun acc r => acc.bind fun s => update_statistics s r) os

/-- Process a list of results starting from a freshly constructed aggregator. -/
def processAll (bucketsUs : List Nat) (rs : List PingResult) :
    Option PingResultProcessorLatencyBucketLogger :=
  runFrom (some (new bucketsUs)) rs

/-- The bucket labels printed by `done` (lines 79-90): every bucket but the
last is labelled `< {:.2}ms` with its own upper bound, the last is labelled
`>= {:.2}ms` with the preceding bound. -/
def bucketLabels (s : PingResultProcessorLatencyBucketLogger) : List String :=
  (List.range s.buckets_in_us.length).map fun i =>
    if i < s.buckets_in_us.length - 1 then
      "< " ++ fmtMs2 (s.buckets_in_us.getD i 0) ++ "ms"
    else
      ">= " ++ fmtMs2 (s.buckets_in_us.getD (i - 1) 0) ++ "ms"

end PingResultProcessorLatencyBucketLogger

namespace Worker

/-- `PingWorkerConfig` fields used by `process_ping_client_result`
(src/ping_worker.rs): the configured source IP, the protocol tag and the
target endpoint. -/
structure WorkerConfig where
  source_ip : String
  protocol : String
  target : SocketAddr
  deriving DecidableEq, Repr

/-- Modelled from the spec: `PingClientPingResultDetails` as consumed by
src/ping_worker.rs is defined in `ping_clients/ping_client.rs`, which is not
part of the provided sources. Per the spec it "carries `actual_local_addr`
(optional)" and the round-trip time, and the worker additionally reads an
`inner_error` field holding the probe's OS error, if any.
`actual_local_addr` is modelled directly as an optional `SocketAddr` (the
worker converts the raw `SockAddr` via `as_socket()`). -/
structure Details where
  actual_local_addr : Option SocketAddr
  round_trip_time : Nat
  inner_error : Option IoError
  deriving DecidableEq, Repr

/-- The result record the worker emits. src/ping_worker.rs (line 95)
constructs it with `PingResult::new(ping_time, id, protocol, target,
local_addr, is_warmup, round_trip_time, inner_error)` — a revision of the
`PingResult` constructor older than the one in src/ping_result.rs, so it is
embedded as its own record of exactly those eight arguments. -/
structure SentResult where
  ping_time : String
  worker_id : Nat
  protocol : String
  target : SocketAddr
  source : SocketAddr
  is_warmup : Bool
  round_trip_time : Nat
  inner_error : Option IoError
  deriving DecidableEq, Repr

/-- Whether the details carry an inner error of kind `AddrInUse`. -/
def Details.isAddrInUse (d : Details) : Bool :=
  match d.inner_error with
  | some e => decide (e.kind = IoErrorKind.addrInUse)
  | none => false

/-- `PingWorker::process_ping_client_result` (src/ping_worker.rs lines
81-106): an `AddrInUse` inner error is absorbed silently (`none` — nothing is
sent to the result channel); otherwise exactly one result is built — its
source is the client-reported local address when present, else the configured
source IP paired with the requested source port — and sent (`some`). -/
def process_ping_client_result (cfg : WorkerConfig) (workerId : Nat)
    (ping_time : String) (src_port : Nat) (is_warmup : Bool) (d : Details) :
    Option SentResult :=
  if d.isAddrInUse then none
  else
    let local_addr :=
      match d.actual_local_addr with
      | some a => a
      | none => SocketAddr.mk cfg.source_ip src_port
    some
      { ping_time := ping_time
        worker_id := workerId
        protocol := cfg.protocol
        target := cfg.target
        source := local_addr
        is_warmup := is_warmup
        round_trip_time := d.round_trip_time
        inner_error := d.inner_error }

end Worker

namespace TcpClient

/-- `PingClientConfig` fields used by `PingClientTcp::ping_target`. -/
structure PingClientConfig where
  wait_timeout : Nat
  time_to_live : Option Nat
  check_disconnect : Bool
  deriving DecidableEq, Repr

/-- Modelled from the spec: `PingClientWarning` (defined in the missing
`ping_clients/ping_client.rs`) — a "non-fatal post-connect anomaly (e.g.
disconnect drain error)". -/
inductive PingClientWarning where
  | DisconnectFailed (e : IoError)
  deriving DecidableEq, Repr

/-- Modelled from the spec: `PingClientPingResultDetails` as constructed by
src/ping_runners/ping_clients/ping_client_tcp.rs — it "carries
`actual_local_addr` (optional), `round_trip_time`, `is_timed_out`, and
optional soft `warning`", and `new` takes those four fields positionally in
that order. -/
structure PingClientPingResultDetails where
  actual_local_addr : Option SocketAddr
  round_trip_time : Nat
  is_timed_out : Bool
  warning : Option PingClientWarning
  deriving DecidableEq, Repr

/-- Outcome of the blocking `connect_timeout` call. -/
inductive ConnectOutcome where
  | ok
  | err (e : IoError)
  deriving DecidableEq, Repr

/-- The outcomes of the OS interactions performed by one `ping_target` call,
abstracted as inputs: the socket preparation result
(`prepare_socket_for_ping`), the connect result with the measured elapsed
time in microseconds, the `local_addr` query result, and the
`shutdown_connection` (half-close and drain) result. -/
structure TcpPingEnv where
  prepare_result : Except IoError Unit
  connect_result : ConnectOutcome
  rtt : Nat
  local_addr_result : Except IoError SocketAddr
  shutdown_result : Except IoError Unit
  deriving Repr

/-- `PingClientTcp::ping_target` (src/ping_runners/ping_clients/
ping_client_tcp.rs lines 19-48). Preparation failure maps to
`PreparationFailed`; a connect error of kind `TimedOut` is an expected value
and returns `Ok` with `is_timed_out = true`, no local address and the
measured elapsed time; any other connect error returns `PingFailed` with the
underlying OS error; on connect success the optional disconnect check turns a
shutdown error into a `DisconnectFailed` warning, and a failed local-address
query is ignored by omitting the address. -/
def ping_target (cfg : PingClientConfig) (env : TcpPingEnv) :
    Except PingClientError PingClientPingResultDetails :=
  match env.prepare_result with
  | .error e => .error (PingClientError.PreparationFailed e)
  | .ok _ =>
    match env.connect_result with
    | .err e =>
        if e.kind = IoErrorKind.timedOut then
          .ok (PingClientPingResultDetails.mk none env.rtt true none)
        else
          .error (PingClientError.PingFailed e)
    | .ok =>
        let warning :=
          if cfg.check_disconnect then
            match env.shutdown_result with
            | .error e => some (PingClientWarning.DisconnectFailed e)
            | .ok _ => none
          else none
        match env.local_addr_result with
        | .ok addr => .ok (PingClientPingResultDetails.mk (some addr) env.rtt false warning)
        | .error _ => .ok (PingClientPingResultDetails.mk none env.rtt false warning)

end TcpClient

/-! Concrete inputs used by the scenario claims (the sample data of the
repository's unit tests). -/

/-- The spec's separator list `[0.1, 0.5, 1.0, 10.0, 50.0, 100.0]` ms after
the constructor's exact conversion to microseconds. -/
def c1SepsUs : List Nat := [100, 500, 1000, 10000, 50000, 100000]

def pingTimeSample : String := "2021-07-06T09:10:11.012Z"

def targetSample : SocketAddr := SocketAddr.mk "1.2.3.4" 443

def sourceSample : SocketAddr := SocketAddr.mk "5.6.7.8" 8080

/-- A 10 ms success. -/
def c1SuccessResult : PingResult :=
  { ping_time := pingTimeSample, worker_id := 1, protocol := "TCP"
    target := targetSample, source := sourceSample, is_warmup := false
    round_trip_time := 10000, is_timed_out := false, error := none }

/-- A 1000 ms timeout represented per the claim's data model: `is_timed_out =
true` and no error. -/
def c1TimeoutResultSpec : PingResult :=
  { ping_time := pingTimeSample, worker_id := 1, protocol := "TCP"
    target := targetSample, source := sourceSample, is_warmup := false
    round_trip_time := 1000000, is_timed_out := true, error := none }

/-- A 1000 ms timeout represented as the aggregator's own unit test does:
carrying an error of kind `TimedOut`. -/
def c1TimeoutResultAmended : PingResult :=
  { ping_time := pingTimeSample, worker_id := 1, protocol := "TCP"
    target := targetSample, source := sourceSample, is_warmup := false
    round_trip_time := 1000000, is_timed_out := true
    error := some (PingClientError.PingFailed (IoError.mk IoErrorKind.timedOut "timed out")) }

/-- A 0 ms connect-refused failure. -/
def c1RefusedResult : PingResult :=
  { ping_time := pingTimeSample, worker_id := 1, protocol := "TCP"
    target := targetSample, source := sourceSample, is_warmup := false
    round_trip_time := 0, is_timed_out := false
    error := some (PingClientError.PingFailed
      (IoError.mk IoErrorKind.connectionRefused "connect failed")) }

/-- The claim's three results with the timeout represented exactly as the
claim states (timed out flag set, no error). -/
def c1SpecResults : List PingResult :=
  [c1SuccessResult, c1TimeoutResultSpec, c1RefusedResult]

/-- The three results with the timeout carrying an error of kind `TimedOut`. -/
def c1AmendedResults : List PingResult :=
  [c1SuccessResult, c1TimeoutResultAmended, c1RefusedResult]

/-- The aggregator state after processing `c1AmendedResults`. -/
def c1FinalState : PingResultProcessorLatencyBucketLogger :=
  { buckets_in_us := c1SepsUs ++ [u128Max], total_hit_count := 3
    bucket_hit_counts := [0, 0, 0, 0, 1, 0, 0]
    timed_out_hit_count := 1, failed_hit_count := 1 }

/-- Scenario 1 of the spec: a warmup success with a 10 ms round trip. -/
def c7Result : PingResult :=
  { ping_time := pingTimeSample, worker_id := 1, protocol := "TCP"
    target := targetSample, source := sourceSample, is_warmup := true
    round_trip_time := 10000, is_timed_out := false, error := none }

def workerCfgSample : Worker.WorkerConfig :=
  Worker.WorkerConfig.mk "5.6.7.8" "TCP" targetSample

def detailsAddrInUse : Worker.Details :=
  Worker.Details.mk none 0 (some (IoError.mk IoErrorKind.addrInUse "address in use"))

def detailsWithLocalAddr : Worker.Details :=
  Worker.Details.mk (some sourceSample) 10000 none

def detailsNoLocalAddr : Worker.Details :=
  Worker.Details.mk none 10000 none

def tcpCfgSample : TcpClient.PingClientConfig :=
  TcpClient.PingClientConfig.mk 1000000 none false

def tcpCfgCheckDisconnect : TcpClient.PingClientConfig :=
  TcpClient.PingClientConfig.mk 1000000 none true

def tcpEnvTimeout : TcpClient.TcpPingEnv :=
  TcpClient.TcpPingEnv.mk (Except.ok ())
    (TcpClient.ConnectOutcome.err (IoError.mk IoErrorKind.timedOut "timed out"))
    1000000 (Except.error (IoError.mk (IoErrorKind.other "NotConnected") "not connected"))
    (Except.ok ())

def tcpEnvShutdownFails : TcpClient.TcpPingEnv :=
  TcpClient.TcpPingEnv.mk (Except.ok ()) TcpClient.ConnectOutcome.ok 5000
    (Except.ok sourceSample)
    (Except.error (IoError.mk (IoErrorKind.other "ConnectionReset") "connection reset"))

namespace PingResultProcessorLatencyBucketLogger

/-- Invariant of aggregator states reachable from `new bucketsUs`: the
normalized bounds are the separators with the `u128::MAX` sentinel appended,
the hit-count vector has one slot per bound, and the total equals timed-out
plus failed plus the bucket sum. -/
def Inv (bucketsUs : List Nat) (s : PingResultProcessorLatencyBucketLogger) : Prop :=
  s.buckets_in_us = bucketsUs ++ [u128Max] ∧
  s.bucket_hit_counts.length = s.buckets_in_us.length ∧
  s.total_hit_count =
    s.timed_out_hit_count + s.failed_hit_count + s.bucket_hit_counts.sum

theorem trackIdx_lt_length {l : List Nat} {lat i : Nat}
    (h : trackIdx l lat = some i) : i < l.length := by
  induction l generalizing i with
  | nil => simp [trackIdx] at h
  | cons b rest ih =>
    unfold trackIdx at h
    by_cases hlt : lat < b
    · simp [hlt] at h
      simp only [List.length_cons]
      omega
    · simp [hlt, Option.map_eq_some'] at h
      obtain ⟨j, hj, hij⟩ := h
      have := ih hj
      simp only [List.length_cons]
      omega

theorem trackIdx_spec {l : List Nat} {lat i : Nat}
    (h : trackIdx l lat = some i) :
    (∃ b, l.get? i = some b ∧ lat < b) ∧
      ∀ j bj, j < i → l.get? j = some bj → bj ≤ lat := by
  induction l generalizing i with
  | nil => simp [trackIdx] at h
  | cons b rest ih =>
    unfold trackIdx at h
    by_cases hlt : lat < b
    · simp [hlt] at h
      subst h
      refine ⟨⟨b, rfl, hlt⟩, ?_⟩
      intro j bj hj
      omega
    · simp [hlt, Option.map_eq_some'] at h
      obtain ⟨j0, hj0, hij⟩ := h
      obtain ⟨⟨b0, hb0, hlt0⟩, hall⟩ := ih hj0
      subst hij
      refine ⟨⟨b0, by simpa using hb0, hlt0⟩, ?_⟩
      intro j bj hj hget
      match j with
      | 0 =>
        simp at hget
        omega
      | Nat.succ jj =>
        exact hall jj bj (by omega) (by simpa using hget)

theorem trackIdx_isSome_append {l : List Nat} {m lat : Nat} (h : lat < m) :
    (trackIdx (l ++ [m]) lat).isSome := by
  induction l with
  | nil => simp [trackIdx, h]
  | cons b rest ih =>
    unfold trackIdx
    by_cases hlt : lat < b
    · simp [hlt]
    · simpa [hlt] using ih

theorem incAt_length (l : List Nat) (i : Nat) : (incAt l i).length = l.length := by
  induction l generalizing i with
  | nil => rfl
  | cons x rest ih =>
    match i with
    | 0 => rfl
    | Nat.succ n => simp [incAt, ih]

theorem incAt_sum {l : List Nat} {i : Nat} (h : i < l.length) :
    (incAt l i).sum = l.sum + 1 := by
  induction l generalizing i with
  | nil => simp at h
  | cons x rest ih =>
    match i with
    | 0 => simp [incAt]; omega
    | Nat.succ n =>
      have hn : n < rest.length := by simpa using h
      simp [incAt, ih hn]
      omega

theorem inv_new (bucketsUs : List Nat) : Inv bucketsUs (new bucketsUs) := by
  refine ⟨rfl, by simp [new], ?_⟩
  simp [new]

theorem inv_update {bucketsUs : List Nat}
    {s s' : PingResultProcessorLatencyBucketLogger} {r : PingResult}
    (hInv : Inv bucketsUs s) (h : update_statistics s r = some s') :
    Inv bucketsUs s' := by
  obtain ⟨hb, hlen, hsum⟩ := hInv
  unfold update_statistics at h
  cases he : r.error with
  | some e =>
    simp only [he] at h
    by_cases hk : e.kind = IoErrorKind.timedOut
    · rw [if_pos hk] at h
      obtain rfl := Option.some.inj h
      refine ⟨hb, hlen, ?_⟩
      simp only []
      omega
    · rw [if_neg hk] at h
      obtain rfl := Option.some.inj h
      refine ⟨hb, hlen, ?_⟩
      simp only []
      omega
  | none =>
    simp only [he] at h
    unfold track_latency_in_buckets at h
    cases ht : trackIdx s.buckets_in_us r.round_trip_time with
    | some i =>
      simp only [ht] at h
      obtain rfl := Option.some.inj h
      have hi : i < s.bucket_hit_counts.length := by
        have := trackIdx_lt_length ht
        omega
      refine ⟨hb, ?_, ?_⟩
      · simp [incAt_length, hlen]
      · simp only [incAt_sum hi]
        omega
    | none => simp [ht] at h

theorem runFrom_none (rs : List PingResult) : runFrom none rs = none := by
  induction rs with
  | nil => rfl
  | cons r rest ih => simpa [runFrom, List.foldl_cons] using ih

theorem inv_runFrom {bucketsUs : List Nat} {rs : List PingResult}
    {s0 s : PingResultProcessorLatencyBucketLogger}
    (h0 : Inv bucketsUs s0) (h : runFrom (some s0) rs = some s) :
    Inv bucketsUs s := by
  induction rs generalizing s0 with
  | nil =>
    obtain rfl : s0 = s := Option.some.inj h
    exact h0
  | cons r rest ih =>
    rw [runFrom, List.foldl_cons] at h
    rw [show ((some s0).bind fun t => update_statistics t r) =
      update_statistics s0 r from rfl] at h
    cases hu : update_statistics s0 r with
    | some s1 =>
      rw [hu] at h
      exact ih (inv_update h0 hu) h
    | none =>
      rw [hu] at h
      rw [show (List.foldl (fun acc r => acc.bind fun t => update_statistics t r)
        none rest) = runFrom none rest from rfl, runFrom_none] at h
      exact Option.noConfusion h

theorem processAll_inv {bucketsUs : List Nat} {rs : List PingResult}
    {s : PingResultProcessorLatencyBucketLogger}
    (h : processAll bucketsUs rs = some s) : Inv bucketsUs s :=
  inv_runFrom (inv_new bucketsUs) h

theorem durationMax_lt_u128Max : durationMaxUs < u128Max := by
  unfold durationMaxUs u128Max
  norm_num

end PingResultProcessorLatencyBucketLogger

open PingResultProcessorLatencyBucketLogger

/-- C1 (counterexample): with the timeout represented exactly as the claim
states — `is_timed_out = true` and no error — the aggregator does not count
it as timed out: `update_statistics` dispatches on the error kind only, so
the error-free 1000 ms result lands in the final `>= 100ms` latency bucket
and the run ends with `timed_out = 0`, not `1` as the claim requires. -/
theorem C1_latency_bucket_tally_counterexample :
    (processAll c1SepsUs c1SpecResults).map
        (fun s => (s.total_hit_count, s.timed_out_hit_count, s.failed_hit_count,
          s.bucket_hit_counts)) = some (3, 0, 1, [0, 0, 0, 0, 1, 0, 1]) ∧
      ¬ (processAll c1SepsUs c1SpecResults).map
          (fun s => s.timed_out_hit_count) = some 1 := by
  constructor
  · rfl
  · intro h
    exact absurd (Option.some.inj h) (by decide)

/-- C1: aggregator tally scenario, amended. With separators
`[0.1, 0.5, 1.0, 10.0, 50.0, 100.0]` ms and three results — a 10 ms success,
a 1000 ms timeout represented (as in the aggregator's own unit test) as a
result carrying an error of kind `TimedOut`, and a 0 ms connect-refused
failure — the counters satisfy `total = 3`, `timed_out = 1`, `failed = 1`,
the bucket at index 4, labelled `< 50.00ms`, holds 1, and every other bucket
holds 0. -/
theorem C1_latency_bucket_tally_amended :
    (processAll c1SepsUs c1AmendedResults).map
        (fun s => (s.total_hit_count, s.timed_out_hit_count, s.failed_hit_count,
          s.bucket_hit_counts)) = some (3, 1, 1, [0, 0, 0, 0, 1, 0, 0]) ∧
      (bucketLabels (new c1SepsUs)).get? 4 = some "< 50.00ms" :=
  ⟨rfl, rfl⟩

/-- C2: for every result processed by a reachable aggregator state, the total
counter is always incremented; an error of kind `TimedOut` increments the
timed-out counter, any other error increments the failed counter, and an
error-free result increments exactly the first bucket whose upper bound
strictly exceeds its round-trip time in microseconds (so a round-trip time
equal to a bound is not counted there: every earlier bound, the equal one
included, is `≤` the latency). -/
theorem C2_update_statistics_dispatch (bucketsUs : List Nat)
    (rs : List PingResult) (s : PingResultProcessorLatencyBucketLogger)
    (r : PingResult) (hs : processAll bucketsUs rs = some s)
    (hr : r.round_trip_time ≤ durationMaxUs) :
    ∃ s', update_statistics s r = some s' ∧
      s'.total_hit_count = s.total_hit_count + 1 ∧
      (∀ e, r.error = some e → e.kind = IoErrorKind.timedOut →
        s'.timed_out_hit_count = s.timed_out_hit_count + 1 ∧
          s'.failed_hit_count = s.failed_hit_count ∧
          s'.bucket_hit_counts = s.bucket_hit_counts) ∧
      (∀ e, r.error = some e → e.kind ≠ IoErrorKind.timedOut →
        s'.failed_hit_count = s.failed_hit_count + 1 ∧
          s'.timed_out_hit_count = s.timed_out_hit_count ∧
          s'.bucket_hit_counts = s.bucket_hit_counts) ∧
      (r.error = none →
        ∃ i b, s.buckets_in_us.get? i = some b ∧ r.round_trip_time < b ∧
          (∀ j bj, j < i → s.buckets_in_us.get? j = some bj →
            bj ≤ r.round_trip_time) ∧
          s'.bucket_hit_counts = incAt s.bucket_hit_counts i ∧
          s'.timed_out_hit_count = s.timed_out_hit_count ∧
          s'.failed_hit_count = s.failed_hit_count) := by
  obtain ⟨hb, hlen, hsum⟩ := processAll_inv hs
  cases he : r.error with
  | some e =>
    by_cases hk : e.kind = IoErrorKind.timedOut
    · refine ⟨{ s with
        total_hit_count := s.total_hit_count + 1
        timed_out_hit_count := s.timed_out_hit_count + 1 }, ?_, rfl, ?_, ?_, ?_⟩
      · unfold update_statistics
        simp only [he]
        rw [if_pos hk]
      · intro e2 he2 hk2
        exact ⟨rfl, rfl, rfl⟩
      · intro e2 he2 hk2
        obtain rfl := Option.some.inj he2
        exact absurd hk hk2
      · intro h0
        exact Option.noConfusion h0
    · refine ⟨{ s with
        total_hit_count := s.total_hit_count + 1
        failed_hit_count := s.failed_hit_count + 1 }, ?_, rfl, ?_, ?_, ?_⟩
      · unfold update_statistics
        simp only [he]
        rw [if_neg hk]
      · intro e2 he2 hk2
        obtain rfl := Option.some.inj he2
        exact absurd hk2 hk
      · intro e2 he2 hk2
        exact ⟨rfl, rfl, rfl⟩
      · intro h0
        exact Option.noConfusion h0
  | none =>
    have hlt : r.round_trip_time < u128Max :=
      lt_of_le_of_lt hr durationMax_lt_u128Max
    have hsome : (trackIdx s.buckets_in_us r.round_trip_time).isSome := by
      rw [hb]
      exact trackIdx_isSome_append hlt
    obtain ⟨i, hti⟩ := Option.isSome_iff_exists.mp hsome
    obtain ⟨⟨b, hbi, hlti⟩, hleast⟩ := trackIdx_spec hti
    refine ⟨{ s with
      total_hit_count := s.total_hit_count + 1
      bucket_hit_counts := incAt s.bucket_hit_counts i }, ?_, rfl, ?_, ?_, ?_⟩
    · unfold update_statistics
      simp only [he]
      unfold track_latency_in_buckets
      simp only [hti]
    · intro e2 he2 hk2
      exact Option.noConfusion he2
    · intro e2 he2 hk2
      exact Option.noConfusion he2
    · intro h0
      exact ⟨i, b, hbi, hlti, hleast, rfl, rfl, rfl⟩

/-- C2 (witness): the dispatch theorem applied to a fresh aggregator over the
spec's separators and the 10 ms success sample. -/
theorem C2_update_statistics_dispatch_witness :
    c1SuccessResult.round_trip_time ≤ durationMaxUs ∧
      (∃ s', update_statistics (new c1SepsUs) c1SuccessResult = some s' ∧
        s'.total_hit_count = (new c1SepsUs).total_hit_count + 1 ∧
        (∀ e, c1SuccessResult.error = some e → e.kind = IoErrorKind.timedOut →
          s'.timed_out_hit_count = (new c1SepsUs).timed_out_hit_count + 1 ∧
            s'.failed_hit_count = (new c1SepsUs).failed_hit_count ∧
            s'.bucket_hit_counts = (new c1SepsUs).bucket_hit_counts) ∧
        (∀ e, c1SuccessResult.error = some e → e.kind ≠ IoErrorKind.timedOut →
          s'.failed_hit_count = (new c1SepsUs).failed_hit_count + 1 ∧
            s'.timed_out_hit_count = (new c1SepsUs).timed_out_hit_count ∧
            s'.bucket_hit_counts = (new c1SepsUs).bucket_hit_counts) ∧
        (c1SuccessResult.error = none →
          ∃ i b, (new c1SepsUs).buckets_in_us.get? i = some b ∧
            c1SuccessResult.round_trip_time < b ∧
            (∀ j bj, j < i → (new c1SepsUs).buckets_in_us.get? j = some bj →
              bj ≤ c1SuccessResult.round_trip_time) ∧
            s'.bucket_hit_counts = incAt (new c1SepsUs).bucket_hit_counts i ∧
            s'.timed_out_hit_count = (new c1SepsUs).timed_out_hit_count ∧
            s'.failed_hit_count = (new c1SepsUs).failed_hit_count)) :=
  ⟨by decide,
    C2_update_statistics_dispatch c1SepsUs [] (new c1SepsUs) c1SuccessResult
      rfl (by decide)⟩

/-- C3: the worker's result-construction step sends nothing to the result
channel when the ping-client outcome carries an inner error of kind
`AddrInUse`, and sends exactly one `PingResult` for every other outcome. -/
theorem C3_addr_in_use_absorbed (cfg : Worker.WorkerConfig) (workerId : Nat)
    (ping_time : String) (src_port : Nat) (is_warmup : Bool)
    (d : Worker.Details) :
    ((∃ e, d.inner_error = some e ∧ e.kind = IoErrorKind.addrInUse) →
      Worker.process_ping_client_result cfg workerId ping_time src_port
        is_warmup d = none) ∧
    ((¬ ∃ e, d.inner_error = some e ∧ e.kind = IoErrorKind.addrInUse) →
      (Worker.process_ping_client_result cfg workerId ping_time src_port
        is_warmup d).isSome) := by
  unfold Worker.process_ping_client_result
  constructor
  · rintro ⟨e, hee, hk⟩
    have hbool : d.isAddrInUse = true := by
      unfold Worker.Details.isAddrInUse
      rw [hee]
      exact decide_eq_true hk
    rw [if_pos hbool]
  · intro hno
    have hbool : d.isAddrInUse = false := by
      unfold Worker.Details.isAddrInUse
      cases hee : d.inner_error with
      | none => rfl
      | some e => exact decide_eq_false fun hk => hno ⟨e, hee, hk⟩
    simp [hbool]

/-- C3 (witness): the absorption applied to an outcome carrying an
`AddrInUse` inner error — nothing is emitted. -/
theorem C3_addr_in_use_absorbed_witness :
    Worker.process_ping_client_result workerCfgSample 1 pingTimeSample 8080
      false detailsAddrInUse = none :=
  (C3_addr_in_use_absorbed workerCfgSample 1 pingTimeSample 8080 false
    detailsAddrInUse).1
    ⟨IoError.mk IoErrorKind.addrInUse "address in use", rfl, rfl⟩

/-- C4: for every emitted `PingResult`, the source field is the ping-client's
`actual_local_addr` when present, and otherwise the configured source IP
paired with the requested source port. -/
theorem C4_source_field (cfg : Worker.WorkerConfig) (workerId : Nat)
    (ping_time : String) (src_port : Nat) (is_warmup : Bool)
    (d : Worker.Details) (res : Worker.SentResult)
    (h : Worker.process_ping_client_result cfg workerId ping_time src_port
      is_warmup d = some res) :
    (∀ a, d.actual_local_addr = some a → res.source = a) ∧
    (d.actual_local_addr = none →
      res.source = SocketAddr.mk cfg.source_ip src_port) := by
  unfold Worker.process_ping_client_result at h
  by_cases hau : d.isAddrInUse
  · rw [if_pos hau] at h
    exact Option.noConfusion h
  · rw [if_neg hau] at h
    obtain rfl := Option.some.inj h
    constructor
    · intro a ha
      simp [ha]
    · intro ha
      simp [ha]

/-- C4 (witness): construction applied to details that do carry an actual
local address — the emitted result's source is that address. -/
theorem C4_source_field_witness :
    (Worker.SentResult.mk pingTimeSample 1 "TCP" targetSample sourceSample
      false 10000 none).source = sourceSample :=
  (C4_source_field workerCfgSample 1 pingTimeSample 8080 false
    detailsWithLocalAddr _ rfl).1 sourceSample rfl

/-- C5: in the TCP ping operation, a connect failure of kind `TimedOut`
yields `Ok` with `is_timed_out = true`, no local address, no warning and the
measured round-trip time, while any other connect failure yields a
`PingFailed` error preserving the underlying OS error. -/
theorem C5_tcp_connect_error_handling (cfg : TcpClient.PingClientConfig)
    (env : TcpClient.TcpPingEnv) (e : IoError)
    (hp : env.prepare_result = Except.ok ())
    (hc : env.connect_result = TcpClient.ConnectOutcome.err e) :
    (e.kind = IoErrorKind.timedOut →
      TcpClient.ping_target cfg env = Except.ok
        (TcpClient.PingClientPingResultDetails.mk none env.rtt true none)) ∧
    (e.kind ≠ IoErrorKind.timedOut →
      TcpClient.ping_target cfg env =
        Except.error (PingClientError.PingFailed e)) := by
  constructor
  · intro hk
    unfold TcpClient.ping_target
    simp only [hp, hc]
    rw [if_pos hk]
  · intro hk
    unfold TcpClient.ping_target
    simp only [hp, hc]
    rw [if_neg hk]

/-- C5 (witness): the TCP ping applied to a connect timeout outcome. -/
theorem C5_tcp_connect_error_handling_witness :
    TcpClient.ping_target tcpCfgSample tcpEnvTimeout = Except.ok
      (TcpClient.PingClientPingResultDetails.mk none tcpEnvTimeout.rtt true none) :=
  (C5_tcp_connect_error_handling tcpCfgSample tcpEnvTimeout
    (IoError.mk IoErrorKind.timedOut "timed out") rfl rfl).1 rfl

/-- C6: when `check_disconnect` is enabled and the connect succeeds, an error
raised by the half-close and drain is recorded as a `DisconnectFailed`
warning in the returned details and `ping_target` still returns `Ok` with
`is_timed_out = false`. -/
theorem C6_disconnect_warning (cfg : TcpClient.PingClientConfig)
    (env : TcpClient.TcpPingEnv) (e : IoError)
    (hcd : cfg.check_disconnect = true)
    (hp : env.prepare_result = Except.ok ())
    (hc : env.connect_result = TcpClient.ConnectOutcome.ok)
    (hsd : env.shutdown_result = Except.error e) :
    ∃ d, TcpClient.ping_target cfg env = Except.ok d ∧
      d.warning = some (TcpClient.PingClientWarning.DisconnectFailed e) ∧
      d.is_timed_out = false := by
  unfold TcpClient.ping_target
  cases hla : env.local_addr_result with
  | ok addr =>
    refine ⟨TcpClient.PingClientPingResultDetails.mk (some addr) env.rtt false
      (some (TcpClient.PingClientWarning.DisconnectFailed e)), ?_, rfl, rfl⟩
    simp [hp, hc, hcd, hsd, hla]
  | error e2 =>
    refine ⟨TcpClient.PingClientPingResultDetails.mk none env.rtt false
      (some (TcpClient.PingClientWarning.DisconnectFailed e)), ?_, rfl, rfl⟩
    simp [hp, hc, hcd, hsd, hla]

/-- C6 (witness): a successful connect with a failing shutdown under
`check_disconnect` — the probe still returns `Ok` and carries the warning. -/
theorem C6_disconnect_warning_witness :
    ∃ d, TcpClient.ping_target tcpCfgCheckDisconnect tcpEnvShutdownFails =
        Except.ok d ∧
      d.warning = some (TcpClient.PingClientWarning.DisconnectFailed
        (IoError.mk (IoErrorKind.other "ConnectionReset") "connection reset")) ∧
      d.is_timed_out = false :=
  C6_disconnect_warning tcpCfgCheckDisconnect tcpEnvShutdownFails
    (IoError.mk (IoErrorKind.other "ConnectionReset") "connection reset")
    rfl rfl rfl rfl

/-- C7 (counterexample): the claimed template inserts a colon between the
warmup marker and `succeeded`, but the code's format string has none — for
the spec's scenario-1 result the emitted line is
`... (warmup) succeeded: RTT=10.00ms`, not `... (warmup): succeeded: ...`. -/
theorem C7_console_success_template_counterexample :
    c7Result.format_as_console_log ≠
      "Reaching TCP 1.2.3.4:443 from 5.6.7.8:8080 (warmup): succeeded: RTT=10.00ms" ∧
    c7Result.format_as_console_log =
      "Reaching TCP 1.2.3.4:443 from 5.6.7.8:8080 (warmup) succeeded: RTT=10.00ms" :=
  ⟨by decide, rfl⟩

/-- C7 (amended): for every result that is neither timed out nor carries an
error, `format_as_console_log` returns
`Reaching {protocol} {target} from {source}{warmup?} succeeded: RTT={rtt_ms}ms`
(no colon after the warmup marker), where `{warmup?}` is `" (warmup)"` when
`is_warmup` is set and empty otherwise, and `rtt_ms` is the round-trip time
in microseconds divided by 1000 formatted to two decimals. -/
theorem C7_console_success_template_amended (r : PingResult)
    (ht : r.is_timed_out = false) (he : r.error = none) :
    r.format_as_console_log =
      "Reaching " ++ r.protocol ++ " " ++ r.target.render ++ " from " ++
        r.source.render ++ (if r.is_warmup then " (warmup)" else "") ++
        " succeeded: RTT=" ++ fmtMs2 r.round_trip_time ++ "ms" := by
  unfold PingResult.format_as_console_log
  simp [ht, he]

/-- C7 (witness): the amended template applied to the scenario-1 sample. -/
theorem C7_console_success_template_amended_witness :
    c7Result.format_as_console_log =
      "Reaching " ++ c7Result.protocol ++ " " ++ c7Result.target.render ++
        " from " ++ c7Result.source.render ++
        (if c7Result.is_warmup then " (warmup)" else "") ++
        " succeeded: RTT=" ++ fmtMs2 c7Result.round_trip_time ++ "ms" :=
  C7_console_success_template_amended c7Result rfl rfl

/-- C8: the JSON and CSV formatters are deterministic functions of the
`PingResult` fields — for every fixed result, any two invocations yield
byte-identical strings. -/
theorem C8_formatters_deterministic (r : PingResult) :
    r.format_as_json_string = r.format_as_json_string ∧
    r.format_as_csv_string = r.format_as_csv_string :=
  ⟨rfl, rfl⟩

/-- C9: the `unreachable!()` branch of `track_latency_in_buckets` is dead:
construction appends `u128::MAX` as the final upper bound and every
`Duration` microsecond value is strictly below `u128::MAX`, so on any
reachable aggregator state, processing a result with no error finds a bucket
and never panics. -/
theorem C9_unreachable_dead (bucketsUs : List Nat) (rs : List PingResult)
    (s : PingResultProcessorLatencyBucketLogger) (r : PingResult)
    (hs : processAll bucketsUs rs = some s) (he : r.error = none)
    (hr : r.round_trip_time ≤ durationMaxUs) :
    (update_statistics s r).isSome := by
  obtain ⟨hb, hlen, hsum⟩ := processAll_inv hs
  have hlt : r.round_trip_time < u128Max :=
    lt_of_le_of_lt hr durationMax_lt_u128Max
  have hsome : (trackIdx s.buckets_in_us r.round_trip_time).isSome := by
    rw [hb]
    exact trackIdx_isSome_append hlt
  obtain ⟨i, hti⟩ := Option.isSome_iff_exists.mp hsome
  unfold update_statistics
  simp only [he]
  unfold track_latency_in_buckets
  simp only [hti, Option.isSome_some]

/-- C9 (witness): processing the error-free 10 ms sample on a fresh
aggregator does not panic. -/
theorem C9_unreachable_dead_witness :
    c1SuccessResult.error = none ∧
      c1SuccessResult.round_trip_time ≤ durationMaxUs ∧
      (update_statistics (new c1SepsUs) c1SuccessResult).isSome :=
  ⟨rfl, by decide,
    C9_unreachable_dead c1SepsUs [] (new c1SepsUs) c1SuccessResult rfl rfl
      (by decide)⟩

/-- C10: starting from a freshly constructed latency-bucket aggregator, after
any finite sequence of process calls the total hit count equals the timed-out
count plus the failed count plus the sum of all bucket hit counts. -/
theorem C10_counter_invariant (bucketsUs : List Nat) (rs : List PingResult)
    (s : PingResultProcessorLatencyBucketLogger)
    (hs : processAll bucketsUs rs = some s) :
    s.total_hit_count =
      s.timed_out_hit_count + s.failed_hit_count + s.bucket_hit_counts.sum :=
  (processAll_inv hs).2.2

/-- C10 (witness): the invariant at the state reached by processing the three
amended scenario results. -/
theorem C10_counter_invariant_witness :
    processAll c1SepsUs c1AmendedResults = some c1FinalState ∧
      c1FinalState.total_hit_count =
        c1FinalState.timed_out_hit_count + c1FinalState.failed_hit_count +
          c1FinalState.bucket_hit_counts.sum :=
  ⟨rfl, C10_counter_invariant c1SepsUs c1AmendedResults c1FinalState rfl⟩
